import Mathlib

/-!
Verification of the kompro-backend attendance service.

This file shallowly embeds the two in-scope flows of the repository —
the 2FA issuance/verification state machine and the geofenced
check-in/check-out decision procedure — as executable Lean functions,
translated from `src/routes/user.js` (the second, current variant of the
file, whose handlers the claims cite) and from the debug login variant in
`src/unnamed/part_001`.  Database state is modelled as explicit lists of
rows; the clock, the freshly generated random code, and the outcome of
email delivery are passed as parameters, since the handlers treat them as
external inputs.  JavaScript numbers are modelled as rationals.
-/

namespace Kompro

/-- A JavaScript value as it can appear in a JSON request body field.
Used where the handlers apply JavaScript truthiness (`!x`) or loose
null comparison (`x == null`) to a field. -/
inductive JVal
| jnull
| jundef
| jnum (q : ℚ)
| jstr (s : String)
| jbool (b : Bool)
deriving DecidableEq, Repr

/-- JavaScript truthiness of a value: `0`, `""`, `false`, `null` and
`undefined` are falsy, everything else modelled here is truthy. -/
def truthy : JVal → Bool
| .jnull => false
| .jundef => false
| .jnum q => decide (q ≠ 0)
| .jstr s => decide (s ≠ "")
| .jbool b => b

/-- JavaScript loose comparison `x == null`, true exactly for `null` and
`undefined`. -/
def isNullish : JVal → Bool
| .jnull => true
| .jundef => true
| _ => false

/-- A row of the `"User"` table (`temp.sql`): `user_id`,
`username_email`, `password_hash`.  Fields not read by the embedded
handlers (name, role, nim_nip) are omitted. -/
structure UserRec where
  userId : Nat
  email : String
  passwordHash : String
deriving DecidableEq, Repr

/-- A row of the `user_2fa_codes` table (pg dump in `src/unnamed/part_000`):
`user_id`, `code`, `expires_at`.  Timestamps are modelled as natural
numbers (seconds). -/
structure CodeRec where
  userId : Nat
  code : String
  expiresAt : Nat
deriving DecidableEq, Repr

/-- The office row of the `"Locations"` table: `latitude`, `longitude`,
`radius` — the three columns the check-in/check-out handlers select. -/
structure Location where
  latitude : ℚ
  longitude : ℚ
  radius : ℚ
deriving DecidableEq, Repr

/-- A row of the `"Attendance"` table as inserted by the check-in and
checkout handlers: the raw `userId` request value, `location_id` fixed
at 1, the `type` tag, the server-assigned timestamp, the reported
coordinates, and `notes || null`. -/
structure AttRec where
  userId : JVal
  locationId : Nat
  type : String
  timestamp : Nat
  userLatitude : ℚ
  userLongitude : ℚ
  notes : JVal
deriving DecidableEq, Repr

/-- The relational store: the `"User"` rows, the `user_2fa_codes` rows,
the `"Attendance"` rows, and the `"Locations"` row with
`location_id = 1` (absent when the office is not configured). -/
structure DB where
  users : List UserRec
  codes : List CodeRec
  attendance : List AttRec
  office : Option Location
deriving DecidableEq, Repr

/-- The query `DELETE FROM user_2fa_codes WHERE user_id = $1`. -/
def deleteCodesFor (codes : List CodeRec) (uid : Nat) : List CodeRec :=
  codes.filter (fun r => !(r.userId == uid))

/-- The query `INSERT INTO user_2fa_codes(user_id, code, expires_at)
VALUES($1, $2, NOW() + INTERVAL '5 minutes')`; five minutes are 300
seconds on the second-granular clock. -/
def insertCode (codes : List CodeRec) (uid : Nat) (code : String)
    (expiresAt : Nat) : List CodeRec :=
  codes ++ [⟨uid, code, expiresAt⟩]

/-- Responses of `POST /user/login` (src/routes/user.js:714-783):
400 missing fields, 401 user not found, 401 invalid password,
200 success, and the catch-all 500 `Login failed`. -/
inductive LoginResp
| missingFields
| userNotFound
| invalidPassword
| loginOk (userId : Nat) (email : String)
| loginFailed
deriving DecidableEq, Repr

/-- The `POST /user/login` handler (src/routes/user.js:714-783).
`newCode` is the freshly generated random code, `now` the clock reading,
and `emailOk` whether `transporter.sendMail` succeeds; when it throws,
the catch block answers 500 with the code rows already mutated. -/
def login (db : DB) (now : Nat) (email password newCode : String)
    (emailOk : Bool) : LoginResp × DB :=
  if email = "" ∨ password = "" then (.missingFields, db)
  else
    match db.users.find? (fun u => u.email == email) with
    | none => (.userNotFound, db)
    | some user =>
      if user.passwordHash ≠ password then (.invalidPassword, db)
      else
        let codes' := insertCode (deleteCodesFor db.codes user.userId)
          user.userId newCode (now + 300)
        let db' := { db with codes := codes' }
        if emailOk then (.loginOk user.userId user.email, db')
        else (.loginFailed, db')

/-- Responses of `POST /user/verify-2fa` (src/routes/user.js:886-926):
400 missing fields, 401 `Invalid or expired code`, 200 verified, and the
catch-all 500 (reached when the user row is missing after a code
matched, so `rows[0].username_email` throws). -/
inductive VerifyResp
| missingFields
| invalidOrExpired
| verified (userId : Nat) (email : String)
| verifyError
deriving DecidableEq, Repr

/-- The `POST /user/verify-2fa` handler (src/routes/user.js:886-926).
The lookup `SELECT * FROM user_2fa_codes WHERE user_id = $1 AND
code = $2 AND expires_at > NOW()` requires exact code equality and
expiry strictly after the current time; on a match the code rows for
`(userId, code)` are deleted before the user email lookup. -/
def verify2fa (db : DB) (now : Nat) (userId : Nat) (code : String) :
    VerifyResp × DB :=
  if userId = 0 ∨ code = "" then (.missingFields, db)
  else
    let found := db.codes.filter
      (fun r => r.userId == userId && r.code == code && decide (now < r.expiresAt))
    if found.isEmpty then (.invalidOrExpired, db)
    else
      let codes' := db.codes.filter
        (fun r => !(r.userId == userId && r.code == code))
      let db' := { db with codes := codes' }
      match db.users.find? (fun u => u.userId == userId) with
      | none => (.verifyError, db')
      | some user => (.verified userId user.email, db')

/-- Responses of `POST /user/resend-2fa` (src/routes/user.js:957-1013):
400 missing userId, 404 user not found, 200 resent, and the catch-all
500 `Failed to resend 2FA code`. -/
inductive ResendResp
| missingFields
| userNotFound
| resendOk (userId : Nat) (email : String)
| resendFailed
deriving DecidableEq, Repr

/-- The `POST /user/resend-2fa` handler (src/routes/user.js:957-1013):
user lookup, then delete previous codes, insert the new one with a
5-minute expiry, then attempt delivery. -/
def resend2fa (db : DB) (now : Nat) (userId : Nat) (newCode : String)
    (emailOk : Bool) : ResendResp × DB :=
  if userId = 0 then (.missingFields, db)
  else
    match db.users.find? (fun u => u.userId == userId) with
    | none => (.userNotFound, db)
    | some user =>
      let codes' := insertCode (deleteCodesFor db.codes userId)
        userId newCode (now + 300)
      let db' := { db with codes := codes' }
      if emailOk then (.resendOk userId user.email, db')
      else (.resendFailed, db')

/-- A check-in/checkout request body: `userId` is tested with JavaScript
truthiness, the coordinates with `== null` (so `none` models a null or
absent coordinate), and `notes` is optional. -/
structure CheckReq where
  userId : JVal
  userLatitude : Option ℚ
  userLongitude : Option ℚ
  notes : JVal
deriving DecidableEq, Repr

/-- Responses shared by `POST /user/checkin` and `POST /user/checkout`:
400 missing fields, 500 `Office location not found`, 403 outside the
allowed area, 200 recorded. -/
inductive CheckResp
| missingFields
| officeNotFound
| outsideArea
| recorded (attendanceId : Nat) (timestamp : Nat)
deriving DecidableEq, Repr

/-- The required-field validation of check-in and checkout
(src/routes/user.js:1290, 1376):
`!userId || userLatitude == null || userLongitude == null`. -/
def hasMissingFields (req : CheckReq) : Bool :=
  !truthy req.userId || req.userLatitude.isNone || req.userLongitude.isNone

/-- The `POST /user/checkin` handler (src/routes/user.js:1286-1338).
`dist` is the imported `getDistanceInMeters`; the handler rejects with
403 when `distance > office.radius`, otherwise inserts an attendance row
with type `check-in`, `location_id` 1, the reported coordinates and
`notes || null`, returning the new row id and timestamp. -/
def checkin (dist : ℚ → ℚ → ℚ → ℚ → ℚ) (db : DB) (now : Nat)
    (req : CheckReq) : CheckResp × DB :=
  if hasMissingFields req then (.missingFields, db)
  else
    match db.office with
    | none => (.officeNotFound, db)
    | some office =>
      let lat := req.userLatitude.getD 0
      let lon := req.userLongitude.getD 0
      let d := dist lat lon office.latitude office.longitude
      if d > office.radius then (.outsideArea, db)
      else
        let row : AttRec :=
          { userId := req.userId, locationId := 1, type := "check-in",
            timestamp := now, userLatitude := lat, userLongitude := lon,
            notes := if truthy req.notes then req.notes else .jnull }
        (.recorded (db.attendance.length + 1) now,
          { db with attendance := db.attendance ++ [row] })

/-- The `POST /user/checkout` handler (src/routes/user.js:1372-1424);
identical to check-in except for the inserted `type` tag `checkout`. -/
def checkout (dist : ℚ → ℚ → ℚ → ℚ → ℚ) (db : DB) (now : Nat)
    (req : CheckReq) : CheckResp × DB :=
  if hasMissingFields req then (.missingFields, db)
  else
    match db.office with
    | none => (.officeNotFound, db)
    | some office =>
      let lat := req.userLatitude.getD 0
      let lon := req.userLongitude.getD 0
      let d := dist lat lon office.latitude office.longitude
      if d > office.radius then (.outsideArea, db)
      else
        let row : AttRec :=
          { userId := req.userId, locationId := 1, type := "checkout",
            timestamp := now, userLatitude := lat, userLongitude := lon,
            notes := if truthy req.notes then req.notes else .jnull }
        (.recorded (db.attendance.length + 1) now,
          { db with attendance := db.attendance ++ [row] })

/-- Spec-side generic attendance recording, following §4.4 of the spec:
one decision procedure parameterised by the attendance type tag implied
by which operation is invoked.  Used only to state that check-in and
checkout are the same procedure up to the recorded tag. -/
def recordAttendance (ty : String) (dist : ℚ → ℚ → ℚ → ℚ → ℚ) (db : DB)
    (now : Nat) (req : CheckReq) : CheckResp × DB :=
  if hasMissingFields req then (.missingFields, db)
  else
    match db.office with
    | none => (.officeNotFound, db)
    | some office =>
      let lat := req.userLatitude.getD 0
      let lon := req.userLongitude.getD 0
      let d := dist lat lon office.latitude office.longitude
      if d > office.radius then (.outsideArea, db)
      else
        let row : AttRec :=
          { userId := req.userId, locationId := 1, type := ty,
            timestamp := now, userLatitude := lat, userLongitude := lon,
            notes := if truthy req.notes then req.notes else .jnull }
        (.recorded (db.attendance.length + 1) now,
          { db with attendance := db.attendance ++ [row] })

/-- Responses of the debug login variant in `src/unnamed/part_001`:
its catch block answers 500 with `"Backend Error: " + err.message`, so
distinct failure causes carry distinct messages. -/
inductive DebugLoginResp
| missingFields
| userNotFound
| invalidPassword
| backendError (msg : String)
| loginOk (userId : Nat) (email : String)
deriving DecidableEq, Repr

/-- The debug `POST /user/login` handler (`src/unnamed/part_001`,
lines 11-111).  It checks `EMAIL_USER`/`EMAIL_PASS` before creating the
transporter and throws `Email configuration missing` when absent
(`configPresent` models their presence); a `sendMail` failure carries
the mailer's own message (`sendError`).  Both throw after the code rows
were already mutated. -/
def loginDebug (db : DB) (now : Nat) (email password newCode : String)
    (configPresent : Bool) (sendError : Option String) :
    DebugLoginResp × DB :=
  if email = "" ∨ password = "" then (.missingFields, db)
  else
    match db.users.find? (fun u => u.email == email) with
    | none => (.userNotFound, db)
    | some user =>
      if user.passwordHash ≠ password then (.invalidPassword, db)
      else
        let codes' := insertCode (deleteCodesFor db.codes user.userId)
          user.userId newCode (now + 300)
        let db' := { db with codes := codes' }
        if !configPresent then
          (.backendError ("Backend Error: " ++ "Email configuration missing"), db')
        else
          match sendError with
          | some m => (.backendError ("Backend Error: " ++ m), db')
          | none => (.loginOk user.userId user.email, db')

/-- Options of `otpGenerator.generate` with the library's defaults: all
four character classes enabled unless disabled by the caller. -/
structure OtpOptions where
  digits : Bool := true
  lowerCaseAlphabets : Bool := true
  upperCaseAlphabets : Bool := true
  specialChars : Bool := true
deriving DecidableEq, Repr

/-- Modelled from the otp-generator npm library (v4), whose source is a
dependency and not part of this repository: the pool of characters the
generator draws from, concatenating the class strings `0123456789`,
`a..z`, `A..Z` and the special characters for each enabled option. -/
def otpAllowsChars (o : OtpOptions) : List Char :=
  (if o.digits then "0123456789".toList else []) ++
  (if o.lowerCaseAlphabets then "abcdefghijklmnopqrstuvwxyz".toList else []) ++
  (if o.upperCaseAlphabets then "ABCDEFGHIJKLMNOPQRSTUVWXYZ".toList else []) ++
  (if o.specialChars then "#!&@".toList else [])

/-- Modelled from the otp-generator npm library (v4): the generation
loop.  Each random draw (`crypto.randomInt(0, allowsChars.length)`) is
given as an index into the pool; a draw of `0` for the first character
is skipped when digits are enabled, any other draw appends its pool
character, and the loop stops at the requested length. -/
def otpGenLoop (allows : List Char) (digits : Bool) (len : Nat)
    (acc : List Char) : List Nat → List Char
| [] => acc
| i :: rest =>
  if acc.length ≥ len then acc
  else
    match allows.get? i with
    | none => acc
    | some c =>
      if acc.length = 0 && digits && c == '0' then
        otpGenLoop allows digits len acc rest
      else
        otpGenLoop allows digits len (acc ++ [c]) rest

/-- Modelled from the otp-generator npm library (v4):
`otpGenerator.generate(length, options)` with the random draws passed
explicitly. -/
def otpGenerate (len : Nat) (o : OtpOptions) (draws : List Nat) : String :=
  String.mk (otpGenLoop (otpAllowsChars o) o.digits len [] draws)

/-- The options object passed at the two code-generation call sites
(src/routes/user.js:741-744 and 976-979):
`{ upperCaseAlphabets: false, specialChars: false }`; `digits` and
`lowerCaseAlphabets` keep their default `true`. -/
def loginOtpOptions : OtpOptions :=
  { upperCaseAlphabets := false, specialChars := false }

/-- One request against the service, with the external inputs (fresh
code, delivery outcome, request fields) it depends on.  The timestamp
of each request is supplied alongside in `step`. -/
inductive Op
| login (email password newCode : String) (emailOk : Bool)
| resend (userId : Nat) (newCode : String) (emailOk : Bool)
| verify (userId : Nat) (code : String)
| checkin (req : CheckReq)
| checkout (req : CheckReq)

/-- The store after handling one request at time `now`. -/
def step (dist : ℚ → ℚ → ℚ → ℚ → ℚ) (db : DB) : Op × Nat → DB
| (.login e p c ok, now) => (login db now e p c ok).2
| (.resend uid c ok, now) => (resend2fa db now uid c ok).2
| (.verify uid c, now) => (verify2fa db now uid c).2
| (.checkin req, now) => (checkin dist db now req).2
| (.checkout req, now) => (checkout dist db now req).2

/-- The store after a sequence of requests. -/
def run (dist : ℚ → ℚ → ℚ → ℚ → ℚ) (db : DB) (ops : List (Op × Nat)) : DB :=
  ops.foldl (step dist) db

/-- At most one stored code per user: the code rows carry pairwise
distinct user ids. -/
def atMostOneCodePerUser (db : DB) : Prop :=
  db.codes.Pairwise (fun a b => a.userId ≠ b.userId)

/-- The foreign key `user_2fa_codes_user_id_fkey` of the schema dump:
every code row references an existing user row. -/
def codesReferenceUsers (db : DB) : Prop :=
  ∀ r ∈ db.codes, ∃ u ∈ db.users, u.userId = r.userId

/-- A code verifies for a user at a given time when a stored row matches
the user, the code, and has expiry strictly in the future — the
condition of the verify-2fa lookup. -/
def codeMatches (db : DB) (userId : Nat) (code : String) (now : Nat) : Prop :=
  ∃ r ∈ db.codes, r.userId = userId ∧ r.code = code ∧ now < r.expiresAt

/-- The attendance row the handlers insert for a validated request with
coordinates `lat`/`lon` at time `now`. -/
def attRow (ty : String) (req : CheckReq) (lat lon : ℚ) (now : Nat) :
    AttRec :=
  { userId := req.userId, locationId := 1, type := ty, timestamp := now,
    userLatitude := lat, userLongitude := lon,
    notes := if truthy req.notes then req.notes else .jnull }

lemma checkin_eq_record (dist : ℚ → ℚ → ℚ → ℚ → ℚ) (db : DB) (now : Nat)
    (req : CheckReq) :
    checkin dist db now req = recordAttendance "check-in" dist db now req :=
  rfl

lemma checkout_eq_record (dist : ℚ → ℚ → ℚ → ℚ → ℚ) (db : DB) (now : Nat)
    (req : CheckReq) :
    checkout dist db now req = recordAttendance "checkout" dist db now req :=
  rfl

lemma recordAttendance_of_valid (ty : String) (dist : ℚ → ℚ → ℚ → ℚ → ℚ)
    (db : DB) (now : Nat) (req : CheckReq) (office : Location) (lat lon : ℚ)
    (hv : hasMissingFields req = false) (hoff : db.office = some office)
    (hlat : req.userLatitude = some lat)
    (hlon : req.userLongitude = some lon) :
    recordAttendance ty dist db now req =
      if dist lat lon office.latitude office.longitude > office.radius
      then (.outsideArea, db)
      else (.recorded (db.attendance.length + 1) now,
        { db with attendance := db.attendance ++ [attRow ty req lat lon now] }) := by
  unfold recordAttendance
  rw [hv, hoff, hlat, hlon]
  simp [attRow]

/-- C8: check-in and checkout are the same procedure up to the recorded
type tag: for every input and office configuration both equal the
generic spec-side attendance recording, instantiated with `check-in`
and `checkout` respectively — same office lookup, same
distance-versus-radius decision, and on acceptance an unconditional
insert of a new independent record. -/
theorem claim_checkin_checkout_symmetric :
    ∀ (dist : ℚ → ℚ → ℚ → ℚ → ℚ) (db : DB) (now : Nat) (req : CheckReq),
      checkin dist db now req = recordAttendance "check-in" dist db now req ∧
      checkout dist db now req = recordAttendance "checkout" dist db now req :=
  fun _ _ _ _ => ⟨rfl, rfl⟩

/-- C1: with a configured office and a well-formed request, a check-in
or checkout is accepted and writes an attendance row exactly when the
computed distance is at most the office radius; a point exactly at the
radius boundary is accepted, and a strictly greater distance is
rejected with the outside-allowed-area error. -/
theorem claim_geofence_accepts_iff_within_radius
    (dist : ℚ → ℚ → ℚ → ℚ → ℚ) (db : DB) (now : Nat) (req : CheckReq)
    (office : Location) (lat lon : ℚ)
    (hv : hasMissingFields req = false) (hoff : db.office = some office)
    (hlat : req.userLatitude = some lat)
    (hlon : req.userLongitude = some lon) :
    ((checkin dist db now req).1 = .recorded (db.attendance.length + 1) now
      ∧ (checkin dist db now req).2.attendance
          = db.attendance ++ [attRow "check-in" req lat lon now]
      ↔ dist lat lon office.latitude office.longitude ≤ office.radius)
    ∧ (dist lat lon office.latitude office.longitude = office.radius →
        (checkin dist db now req).1 = .recorded (db.attendance.length + 1) now)
    ∧ (dist lat lon office.latitude office.longitude > office.radius →
        (checkin dist db now req).1 = .outsideArea)
    ∧ ((checkout dist db now req).1 = .recorded (db.attendance.length + 1) now
      ∧ (checkout dist db now req).2.attendance
          = db.attendance ++ [attRow "checkout" req lat lon now]
      ↔ dist lat lon office.latitude office.longitude ≤ office.radius)
    ∧ (dist lat lon office.latitude office.longitude = office.radius →
        (checkout dist db now req).1 = .recorded (db.attendance.length + 1) now)
    ∧ (dist lat lon office.latitude office.longitude > office.radius →
        (checkout dist db now req).1 = .outsideArea) := by
  have hc := (checkin_eq_record dist db now req).trans
    (recordAttendance_of_valid "check-in" dist db now req office lat lon hv hoff hlat hlon)
  have hco := (checkout_eq_record dist db now req).trans
    (recordAttendance_of_valid "checkout" dist db now req office lat lon hv hoff hlat hlon)
  by_cases hd : dist lat lon office.latitude office.longitude > office.radius
  · rw [if_pos hd] at hc hco
    have hnle : ¬ dist lat lon office.latitude office.longitude ≤ office.radius :=
      not_le.mpr hd
    refine ⟨?_, ?_, ?_, ?_, ?_, ?_⟩
    · rw [hc]; simp [hnle]
    · intro heq; exact absurd hd (by rw [heq]; exact lt_irrefl _)
    · intro _; rw [hc]
    · rw [hco]; simp [hnle]
    · intro heq; exact absurd hd (by rw [heq]; exact lt_irrefl _)
    · intro _; rw [hco]
  · rw [if_neg hd] at hc hco
    have hle : dist lat lon office.latitude office.longitude ≤ office.radius :=
      not_lt.mp hd
    refine ⟨?_, ?_, ?_, ?_, ?_, ?_⟩
    · rw [hc]; simp [hle]
    · intro _; rw [hc]
    · intro hlt; exact absurd hlt hd
    · rw [hco]; simp [hle]
    · intro _; rw [hco]
    · intro hlt; exact absurd hlt hd

/-- Closed witness for C1: an office of radius 50 at the origin, a
request exactly at distance 50 (boundary, accepted) under a taxicab
distance function. -/
theorem claim_geofence_accepts_iff_within_radius_witness :
    hasMissingFields ⟨.jnum 7, some 50, some 0, .jnull⟩ = false
    ∧ (DB.mk [] [] [] (some ⟨0, 0, 50⟩)).office = some ⟨0, 0, 50⟩
    ∧ (checkin (fun a b c d => |a - c| + |b - d|)
        (DB.mk [] [] [] (some ⟨0, 0, 50⟩)) 9
        ⟨.jnum 7, some 50, some 0, .jnull⟩).1 = .recorded 1 9 := by
  refine ⟨by decide, rfl, ?_⟩
  have h := claim_geofence_accepts_iff_within_radius
    (fun a b c d => |a - c| + |b - d|) (DB.mk [] [] [] (some ⟨0, 0, 50⟩)) 9
    ⟨.jnum 7, some 50, some 0, .jnull⟩ ⟨0, 0, 50⟩ 50 0
    (by decide) rfl rfl rfl
  exact h.2.1 (by norm_num)

/-- C5: with a configured office and a well-formed request whose
computed distance strictly exceeds the radius, check-in and checkout
both answer outside-allowed-area and leave the store — in particular
the attendance rows — unchanged. -/
theorem claim_rejected_request_writes_no_record
    (dist : ℚ → ℚ → ℚ → ℚ → ℚ) (db : DB) (now : Nat) (req : CheckReq)
    (office : Location) (lat lon : ℚ)
    (hv : hasMissingFields req = false) (hoff : db.office = some office)
    (hlat : req.userLatitude = some lat)
    (hlon : req.userLongitude = some lon)
    (hd : dist lat lon office.latitude office.longitude > office.radius) :
    checkin dist db now req = (.outsideArea, db)
    ∧ checkout dist db now req = (.outsideArea, db) := by
  have hc := (checkin_eq_record dist db now req).trans
    (recordAttendance_of_valid "check-in" dist db now req office lat lon hv hoff hlat hlon)
  have hco := (checkout_eq_record dist db now req).trans
    (recordAttendance_of_valid "checkout" dist db now req office lat lon hv hoff hlat hlon)
  rw [if_pos hd] at hc hco
  exact ⟨hc, hco⟩

/-- Closed witness for C5: a request at taxicab distance 51 from an
office of radius 50 is rejected and the store is unchanged. -/
theorem claim_rejected_request_writes_no_record_witness :
    hasMissingFields ⟨.jnum 7, some 51, some 0, .jnull⟩ = false
    ∧ ((fun a b c d => |a - c| + |b - d| : ℚ → ℚ → ℚ → ℚ → ℚ) 51 0 0 0 > (50 : ℚ))
    ∧ checkin (fun a b c d => |a - c| + |b - d|)
        (DB.mk [] [] [] (some ⟨0, 0, 50⟩)) 9
        ⟨.jnum 7, some 51, some 0, .jnull⟩
      = (.outsideArea, DB.mk [] [] [] (some ⟨0, 0, 50⟩)) := by
  refine ⟨by decide, by norm_num, ?_⟩
  exact (claim_rejected_request_writes_no_record
    (fun a b c d => |a - c| + |b - d|) (DB.mk [] [] [] (some ⟨0, 0, 50⟩)) 9
    ⟨.jnum 7, some 51, some 0, .jnull⟩ ⟨0, 0, 50⟩ 51 0
    (by decide) rfl rfl rfl (by norm_num)).1

/-- C10: in the required-field validation of check-in and checkout a
coordinate equal to 0 counts as present (only null/absent coordinates
are rejected), while a userId of 0 — like every other falsy value — is
rejected with the missing-fields error and the store is unchanged. -/
theorem claim_zero_coordinate_accepted_zero_userid_rejected
    (dist : ℚ → ℚ → ℚ → ℚ → ℚ) (db : DB) (now : Nat) (v : JVal)
    (lat lon : ℚ) (n1 n2 : JVal) (req : CheckReq)
    (hv : truthy v = true) (hfalsy : truthy req.userId = false) :
    hasMissingFields ⟨v, some 0, some lon, n1⟩ = false
    ∧ hasMissingFields ⟨v, some lat, some 0, n2⟩ = false
    ∧ truthy (JVal.jnum 0) = false
    ∧ checkin dist db now req = (.missingFields, db)
    ∧ checkout dist db now req = (.missingFields, db) := by
  have hmiss : hasMissingFields req = true := by
    simp [hasMissingFields, hfalsy]
  refine ⟨?_, ?_, ?_, ?_, ?_⟩
  · simp [hasMissingFields, hv]
  · simp [hasMissingFields, hv]
  · simp [truthy]
  · unfold checkin; rw [hmiss]; simp
  · unfold checkout; rw [hmiss]; simp

/-- Closed witness for C10: userId 0 with well-formed coordinates is
rejected by the validation. -/
theorem claim_zero_coordinate_accepted_zero_userid_rejected_witness :
    truthy (JVal.jnum 1) = true
    ∧ truthy ((⟨.jnum 0, some 1, some 1, .jnull⟩ : CheckReq).userId) = false
    ∧ checkin (fun _ _ _ _ => 0) (DB.mk [] [] [] none) 5
        ⟨.jnum 0, some 1, some 1, .jnull⟩
      = (.missingFields, DB.mk [] [] [] none) := by
  refine ⟨by decide, by decide, ?_⟩
  exact (claim_zero_coordinate_accepted_zero_userid_rejected
    (fun _ _ _ _ => 0) (DB.mk [] [] [] none) 5 (JVal.jnum 1) 3 3 .jnull .jnull
    ⟨.jnum 0, some 1, some 1, .jnull⟩ (by decide) (by decide)).2.2.2.1

lemma verify2fa_of_no_match (db : DB) (now : Nat) (uid : Nat) (code : String)
    (hu : uid ≠ 0) (hc : code ≠ "")
    (hno : ¬ codeMatches db uid code now) :
    verify2fa db now uid code = (.invalidOrExpired, db) := by
  have hempty : db.codes.filter
      (fun r => r.userId == uid && r.code == code && decide (now < r.expiresAt)) = [] := by
    rw [List.filter_eq_nil_iff]
    intro r hr hp
    simp only [Bool.and_eq_true, beq_iff_eq, decide_eq_true_eq] at hp
    exact hno ⟨r, hr, hp.1.1, hp.1.2, hp.2⟩
  simp [verify2fa, hu, hc, hempty]

lemma verify2fa_filter_ne_nil (db : DB) (now : Nat) (uid : Nat) (code : String)
    (hm : codeMatches db uid code now) :
    db.codes.filter
      (fun r => r.userId == uid && r.code == code && decide (now < r.expiresAt)) ≠ [] := by
  obtain ⟨r, hr, h1, h2, h3⟩ := hm
  intro hnil
  rw [List.filter_eq_nil_iff] at hnil
  exact hnil r hr (by simp [h1, h2, h3])

lemma verify2fa_of_match (db : DB) (now : Nat) (uid : Nat) (code : String)
    (user : UserRec) (hu : uid ≠ 0) (hc : code ≠ "")
    (hm : codeMatches db uid code now)
    (hfind : db.users.find? (fun u => u.userId == uid) = some user) :
    verify2fa db now uid code =
      (.verified uid user.email,
       { db with codes :=
          db.codes.filter (fun r => !(r.userId == uid && r.code == code)) }) := by
  have hne := verify2fa_filter_ne_nil db now uid code hm
  simp [verify2fa, hu, hc, List.isEmpty_iff, hne, hfind]

lemma verify2fa_snd_of_match (db : DB) (now : Nat) (uid : Nat) (code : String)
    (hu : uid ≠ 0) (hc : code ≠ "")
    (hm : codeMatches db uid code now) :
    (verify2fa db now uid code).2 =
      { db with codes :=
          db.codes.filter (fun r => !(r.userId == uid && r.code == code)) } := by
  have hne := verify2fa_filter_ne_nil db now uid code hm
  cases hfind : db.users.find? (fun u => u.userId == uid) with
  | none => simp [verify2fa, hu, hc, List.isEmpty_iff, hne, hfind]
  | some user => simp [verify2fa, hu, hc, List.isEmpty_iff, hne, hfind]

lemma login_of_valid_creds (db : DB) (now : Nat) (e p c : String) (ok : Bool)
    (user : UserRec) (he : e ≠ "") (hp : p ≠ "")
    (hfind : db.users.find? (fun u => u.email == e) = some user)
    (hpw : user.passwordHash = p) :
    login db now e p c ok =
      ((if ok then .loginOk user.userId user.email else .loginFailed),
       { db with codes :=
          insertCode (deleteCodesFor db.codes user.userId) user.userId c (now + 300) }) := by
  cases ok <;> simp [login, he, hp, hfind, hpw]

lemma resend2fa_of_found (db : DB) (now : Nat) (uid : Nat) (c : String)
    (ok : Bool) (v : UserRec) (hu : uid ≠ 0)
    (hfind : db.users.find? (fun u => u.userId == uid) = some v) :
    resend2fa db now uid c ok =
      ((if ok then .resendOk uid v.email else .resendFailed),
       { db with codes := insertCode (deleteCodesFor db.codes uid) uid c (now + 300) }) := by
  cases ok <;> simp [resend2fa, hu, hfind]

lemma loginDebug_config_missing (db : DB) (now : Nat) (e p c : String)
    (sendError : Option String) (user : UserRec) (he : e ≠ "") (hp : p ≠ "")
    (hfind : db.users.find? (fun u => u.email == e) = some user)
    (hpw : user.passwordHash = p) :
    loginDebug db now e p c false sendError =
      (.backendError "Backend Error: Email configuration missing",
       { db with codes :=
          insertCode (deleteCodesFor db.codes user.userId) user.userId c (now + 300) }) := by
  simp [loginDebug, he, hp, hfind, hpw]

lemma loginDebug_send_failure (db : DB) (now : Nat) (e p c m : String)
    (user : UserRec) (he : e ≠ "") (hp : p ≠ "")
    (hfind : db.users.find? (fun u => u.email == e) = some user)
    (hpw : user.passwordHash = p) :
    loginDebug db now e p c true (some m) =
      (.backendError ("Backend Error: " ++ m),
       { db with codes :=
          insertCode (deleteCodesFor db.codes user.userId) user.userId c (now + 300) }) := by
  simp [loginDebug, he, hp, hfind, hpw]

/-- C6 (code bug): the code-generation call sites pass
`{ upperCaseAlphabets: false, specialChars: false }`, leaving the
library default `lowerCaseAlphabets: true` in force, so the draw pool
is the 36 characters `0-9a-z` and a generated code need not be numeric:
six draws of index 10 produce `aaaaaa`. -/
theorem claim_generated_code_not_digits_only :
    otpGenerate 6 loginOtpOptions [10, 10, 10, 10, 10, 10] = "aaaaaa"
    ∧ loginOtpOptions.lowerCaseAlphabets = true
    ∧ (otpAllowsChars loginOtpOptions).length = 36
    ∧ ¬ ∀ c ∈ (otpGenerate 6 loginOtpOptions [10, 10, 10, 10, 10, 10]).toList,
          c.isDigit := by
  refine ⟨by decide, by decide, by decide, ?_⟩
  intro h
  exact absurd (h 'a' (by decide)) (by decide)

/-- C2: with userId and code present, and the code rows referencing
existing users (the schema's foreign key), verification succeeds
exactly when a stored code for the user equals the submitted code with
expiry strictly after the current time; any other case — including a
right code whose expiry is not in the future — yields the uniform
invalid-or-expired outcome. -/
theorem claim_verify_success_iff_unexpired_match
    (db : DB) (now : Nat) (uid : Nat) (code : String)
    (hu : uid ≠ 0) (hc : code ≠ "") (hfk : codesReferenceUsers db) :
    ((∃ e, (verify2fa db now uid code).1 = .verified uid e)
      ↔ codeMatches db uid code now)
    ∧ (¬ codeMatches db uid code now →
        verify2fa db now uid code = (.invalidOrExpired, db))
    ∧ ((∀ r ∈ db.codes, r.userId = uid → r.code = code → r.expiresAt ≤ now) →
        verify2fa db now uid code = (.invalidOrExpired, db)) := by
  refine ⟨⟨?_, ?_⟩, ?_, ?_⟩
  · rintro ⟨e, he⟩
    by_contra hnm
    rw [verify2fa_of_no_match db now uid code hu hc hnm] at he
    simp at he
  · intro hm
    obtain ⟨r, hr, h1, h2, h3⟩ := hm
    obtain ⟨u, hu', huid⟩ := hfk r hr
    have hsome : (db.users.find? (fun x => x.userId == uid)).isSome := by
      rw [List.find?_isSome]
      exact ⟨u, hu', by simp [huid, h1]⟩
    obtain ⟨user, hfind⟩ := Option.isSome_iff_exists.mp hsome
    refine ⟨user.email, ?_⟩
    rw [verify2fa_of_match db now uid code user hu hc ⟨r, hr, h1, h2, h3⟩ hfind]
  · intro hnm
    exact verify2fa_of_no_match db now uid code hu hc hnm
  · intro hexp
    refine verify2fa_of_no_match db now uid code hu hc ?_
    rintro ⟨r, hr, h1, h2, h3⟩
    exact absurd h3 (not_lt.mpr (hexp r hr h1 h2))

/-- Closed witness for C2: a stored code `123456` for user 1 expiring
at time 400 verifies at time 100 and not at time 400. -/
theorem claim_verify_success_iff_unexpired_match_witness :
    (1 : Nat) ≠ 0 ∧ "123456" ≠ ""
    ∧ codesReferenceUsers
        (DB.mk [⟨1, "a@x.com", "pw"⟩] [⟨1, "123456", 400⟩] [] none)
    ∧ (∃ e, (verify2fa
        (DB.mk [⟨1, "a@x.com", "pw"⟩] [⟨1, "123456", 400⟩] [] none)
        100 1 "123456").1 = .verified 1 e)
    ∧ verify2fa
        (DB.mk [⟨1, "a@x.com", "pw"⟩] [⟨1, "123456", 400⟩] [] none)
        400 1 "123456"
      = (.invalidOrExpired,
         DB.mk [⟨1, "a@x.com", "pw"⟩] [⟨1, "123456", 400⟩] [] none) := by
  have hfk : codesReferenceUsers
      (DB.mk [⟨1, "a@x.com", "pw"⟩] [⟨1, "123456", 400⟩] [] none) := by
    intro r hr
    refine ⟨⟨1, "a@x.com", "pw"⟩, by simp, ?_⟩
    rw [List.mem_singleton] at hr
    rw [hr]
  refine ⟨by decide, by decide, hfk, ?_, ?_⟩
  · exact (claim_verify_success_iff_unexpired_match
      (DB.mk [⟨1, "a@x.com", "pw"⟩] [⟨1, "123456", 400⟩] [] none)
      100 1 "123456" (by decide) (by decide) hfk).1.mpr
      ⟨⟨1, "123456", 400⟩, by simp, rfl, rfl, by decide⟩
  · refine (claim_verify_success_iff_unexpired_match
      (DB.mk [⟨1, "a@x.com", "pw"⟩] [⟨1, "123456", 400⟩] [] none)
      400 1 "123456" (by decide) (by decide) hfk).2.2 ?_
    intro r hr _ _
    rw [List.mem_singleton] at hr
    rw [hr]

/-- C3: a successful verification consumes the stored code, so a second
verification with the same userId and code — at any later (or any)
time — fails with invalid-or-expired: a given code verifies at most
once. -/
theorem claim_verify_single_use
    (db : DB) (now now' : Nat) (uid : Nat) (code : String) (e : String)
    (hu : uid ≠ 0) (hc : code ≠ "")
    (hsucc : (verify2fa db now uid code).1 = .verified uid e) :
    (verify2fa (verify2fa db now uid code).2 now' uid code).1
      = .invalidOrExpired := by
  by_cases hm : codeMatches db uid code now
  · rw [verify2fa_snd_of_match db now uid code hu hc hm]
    rw [verify2fa_of_no_match _ now' uid code hu hc ?_]
    rintro ⟨r, hr, h1, h2, _⟩
    rw [List.mem_filter] at hr
    have := hr.2
    simp only [Bool.not_eq_eq_eq_not, Bool.not_true, Bool.and_eq_false_iff,
      beq_eq_false_iff_ne, ne_eq] at this
    rcases this with h | h
    · exact h h1
    · exact h h2
  · rw [verify2fa_of_no_match db now uid code hu hc hm] at hsucc
    simp at hsucc

/-- Closed witness proposition for C3: verifying `123456` for user 1
twice, the second attempt fails. -/
theorem claim_verify_single_use_witness :
    (1 : Nat) ≠ 0 ∧ "123456" ≠ ""
    ∧ (verify2fa (DB.mk [⟨1, "a@x.com", "pw"⟩] [⟨1, "123456", 400⟩] [] none)
        100 1 "123456").1 = .verified 1 "a@x.com"
    ∧ (verify2fa
        (verify2fa (DB.mk [⟨1, "a@x.com", "pw"⟩] [⟨1, "123456", 400⟩] [] none)
          100 1 "123456").2
        100 1 "123456").1 = .invalidOrExpired := by
  refine ⟨by decide, by decide, by decide, ?_⟩
  exact claim_verify_single_use
    (DB.mk [⟨1, "a@x.com", "pw"⟩] [⟨1, "123456", 400⟩] [] none)
    100 100 1 "123456" "a@x.com" (by decide) (by decide) (by decide)

/-- C7: when credentials are correct but delivery fails, the login does
not complete: the handler answers the catch-all login-failed error,
which is none of user-not-found, invalid-password, or success; in the
debug variant missing delivery configuration is surfaced as its own
configuration message, and a mailer failure carries the mailer's
message. -/
theorem claim_delivery_failure_is_distinct_error
    (db : DB) (now : Nat) (e p c m : String) (sendErr : Option String)
    (user : UserRec) (he : e ≠ "") (hp : p ≠ "")
    (hfind : db.users.find? (fun u => u.email == e) = some user)
    (hpw : user.passwordHash = p) :
    (login db now e p c false).1 = .loginFailed
    ∧ (∀ uid em, (login db now e p c false).1 ≠ .loginOk uid em)
    ∧ (login db now e p c false).1 ≠ .userNotFound
    ∧ (login db now e p c false).1 ≠ .invalidPassword
    ∧ (loginDebug db now e p c false sendErr).1
        = .backendError "Backend Error: Email configuration missing"
    ∧ (loginDebug db now e p c false sendErr).1 ≠ .userNotFound
    ∧ (loginDebug db now e p c false sendErr).1 ≠ .invalidPassword
    ∧ (∀ uid em, (loginDebug db now e p c false sendErr).1 ≠ .loginOk uid em)
    ∧ (loginDebug db now e p c true (some m)).1
        = .backendError ("Backend Error: " ++ m) := by
  rw [login_of_valid_creds db now e p c false user he hp hfind hpw,
    loginDebug_config_missing db now e p c sendErr user he hp hfind hpw,
    loginDebug_send_failure db now e p c m user he hp hfind hpw]
  simp

/-- Closed witness for C7: a one-user store with matching credentials
and failing delivery. -/
theorem claim_delivery_failure_is_distinct_error_witness :
    ("a@x.com" : String) ≠ "" ∧ ("pw" : String) ≠ ""
    ∧ (DB.mk [⟨1, "a@x.com", "pw"⟩] [] [] none).users.find?
        (fun u => u.email == "a@x.com") = some ⟨1, "a@x.com", "pw"⟩
    ∧ (UserRec.mk 1 "a@x.com" "pw").passwordHash = "pw"
    ∧ (login (DB.mk [⟨1, "a@x.com", "pw"⟩] [] [] none)
        10 "a@x.com" "pw" "123456" false).1 = .loginFailed
    ∧ (loginDebug (DB.mk [⟨1, "a@x.com", "pw"⟩] [] [] none)
        10 "a@x.com" "pw" "123456" false none).1
        = .backendError "Backend Error: Email configuration missing" := by
  refine ⟨by decide, by decide, by decide, rfl, ?_, ?_⟩
  · exact (claim_delivery_failure_is_distinct_error
      (DB.mk [⟨1, "a@x.com", "pw"⟩] [] [] none) 10 "a@x.com" "pw" "123456"
      "boom" none ⟨1, "a@x.com", "pw"⟩ (by decide) (by decide)
      (by decide) rfl).1
  · exact (claim_delivery_failure_is_distinct_error
      (DB.mk [⟨1, "a@x.com", "pw"⟩] [] [] none) 10 "a@x.com" "pw" "123456"
      "boom" none ⟨1, "a@x.com", "pw"⟩ (by decide) (by decide)
      (by decide) rfl).2.2.2.2.1

/-- C9: when delivery fails after persistence, login and resend answer
an error, yet the code store has already been mutated exactly as on a
fully successful issuance: prior codes of the user deleted and the new
code stored with the five-minute expiry. -/
theorem claim_codes_persisted_despite_delivery_failure
    (db : DB) (now : Nat) (e p c rc : String) (uid : Nat)
    (user v : UserRec) (he : e ≠ "") (hp : p ≠ "")
    (hfind : db.users.find? (fun u => u.email == e) = some user)
    (hpw : user.passwordHash = p) (hu : uid ≠ 0)
    (hufind : db.users.find? (fun u => u.userId == uid) = some v) :
    (login db now e p c false).1 = .loginFailed
    ∧ (login db now e p c false).2 = (login db now e p c true).2
    ∧ (login db now e p c false).2.codes
        = insertCode (deleteCodesFor db.codes user.userId) user.userId c (now + 300)
    ∧ (resend2fa db now uid rc false).1 = .resendFailed
    ∧ (resend2fa db now uid rc false).2 = (resend2fa db now uid rc true).2
    ∧ (resend2fa db now uid rc false).2.codes
        = insertCode (deleteCodesFor db.codes uid) uid rc (now + 300) := by
  rw [login_of_valid_creds db now e p c false user he hp hfind hpw,
    login_of_valid_creds db now e p c true user he hp hfind hpw,
    resend2fa_of_found db now uid rc false v hu hufind,
    resend2fa_of_found db now uid rc true v hu hufind]
  simp

/-- Closed witness for C9: failing delivery still replaces user 1's old
code with the new one at expiry now + 300. -/
theorem claim_codes_persisted_despite_delivery_failure_witness :
    ("a@x.com" : String) ≠ "" ∧ ("pw" : String) ≠ "" ∧ (1 : Nat) ≠ 0
    ∧ (login (DB.mk [⟨1, "a@x.com", "pw"⟩] [⟨1, "999999", 50⟩] [] none)
        10 "a@x.com" "pw" "123456" false).1 = .loginFailed
    ∧ (login (DB.mk [⟨1, "a@x.com", "pw"⟩] [⟨1, "999999", 50⟩] [] none)
        10 "a@x.com" "pw" "123456" false).2.codes = [⟨1, "123456", 310⟩] := by
  have h := claim_codes_persisted_despite_delivery_failure
    (DB.mk [⟨1, "a@x.com", "pw"⟩] [⟨1, "999999", 50⟩] [] none)
    10 "a@x.com" "pw" "123456" "123456" 1 ⟨1, "a@x.com", "pw"⟩
    ⟨1, "a@x.com", "pw"⟩ (by decide) (by decide) (by decide) rfl
    (by decide) (by decide)
  refine ⟨by decide, by decide, by decide, h.1, ?_⟩
  rw [h.2.2.1]
  decide

lemma pairwiseKey_delete_insert (codes : List CodeRec) (uid : Nat)
    (c : String) (t : Nat)
    (h : codes.Pairwise (fun a b => a.userId ≠ b.userId)) :
    (insertCode (deleteCodesFor codes uid) uid c t).Pairwise
      (fun a b => a.userId ≠ b.userId) := by
  unfold insertCode deleteCodesFor
  rw [List.pairwise_append]
  refine ⟨h.sublist (List.filter_sublist codes), List.pairwise_singleton _ _, ?_⟩
  intro a ha b hb
  rw [List.mem_singleton] at hb
  subst hb
  rw [List.mem_filter] at ha
  have h2 := ha.2
  simp only [Bool.not_eq_eq_eq_not, Bool.not_true, beq_eq_false_iff_ne, ne_eq] at h2
  exact h2

lemma login_codes_cases (db : DB) (now : Nat) (e p c : String) (ok : Bool) :
    (login db now e p c ok).2.codes = db.codes ∨
    ∃ uid, (login db now e p c ok).2.codes
      = insertCode (deleteCodesFor db.codes uid) uid c (now + 300) := by
  unfold login
  by_cases h1 : e = "" ∨ p = ""
  · simp [h1]
  · simp only [if_neg h1]
    cases hfind : db.users.find? (fun u => u.email == e) with
    | none => simp
    | some user =>
      by_cases h2 : user.passwordHash ≠ p
      · simp [h2]
      · simp only [if_neg h2]
        refine Or.inr ⟨user.userId, ?_⟩
        cases ok <;> rfl

lemma resend2fa_codes_cases (db : DB) (now : Nat) (uid : Nat) (c : String)
    (ok : Bool) :
    (resend2fa db now uid c ok).2.codes = db.codes ∨
    (resend2fa db now uid c ok).2.codes
      = insertCode (deleteCodesFor db.codes uid) uid c (now + 300) := by
  unfold resend2fa
  by_cases h1 : uid = 0
  · simp [h1]
  · simp only [if_neg h1]
    cases hfind : db.users.find? (fun u => u.userId == uid) with
    | none => simp
    | some v =>
      refine Or.inr ?_
      cases ok <;> rfl

lemma verify2fa_codes_cases (db : DB) (now : Nat) (uid : Nat) (c : String) :
    (verify2fa db now uid c).2.codes = db.codes ∨
    (verify2fa db now uid c).2.codes
      = db.codes.filter (fun r => !(r.userId == uid && r.code == c)) := by
  unfold verify2fa
  by_cases h1 : uid = 0 ∨ c = ""
  · simp [h1]
  · simp only [if_neg h1]
    by_cases h2 : (db.codes.filter
        (fun r => r.userId == uid && r.code == c && decide (now < r.expiresAt))).isEmpty
    · simp [h2]
    · simp only [h2]
      cases hfind : db.users.find? (fun u => u.userId == uid) with
      | none => simp [Bool.of_not_eq_true h2]
      | some user => simp [Bool.of_not_eq_true h2]

lemma checkin_codes_unchanged (dist : ℚ → ℚ → ℚ → ℚ → ℚ) (db : DB)
    (now : Nat) (req : CheckReq) :
    (checkin dist db now req).2.codes = db.codes := by
  unfold checkin
  cases h1 : hasMissingFields req
  · cases hoff : db.office with
    | none => simp [hoff]
    | some office =>
      by_cases hd : dist (req.userLatitude.getD 0) (req.userLongitude.getD 0)
          office.latitude office.longitude > office.radius <;>
        simp [hoff, hd]
  · simp

lemma checkout_codes_unchanged (dist : ℚ → ℚ → ℚ → ℚ → ℚ) (db : DB)
    (now : Nat) (req : CheckReq) :
    (checkout dist db now req).2.codes = db.codes := by
  unfold checkout
  cases h1 : hasMissingFields req
  · cases hoff : db.office with
    | none => simp [hoff]
    | some office =>
      by_cases hd : dist (req.userLatitude.getD 0) (req.userLongitude.getD 0)
          office.latitude office.longitude > office.radius <;>
        simp [hoff, hd]
  · simp

lemma step_preserves_atMostOne (dist : ℚ → ℚ → ℚ → ℚ → ℚ) (db : DB)
    (op : Op × Nat) (h : atMostOneCodePerUser db) :
    atMostOneCodePerUser (step dist db op) := by
  obtain ⟨o, now⟩ := op
  unfold atMostOneCodePerUser at h ⊢
  cases o with
  | login e p c ok =>
    show ((login db now e p c ok).2).codes.Pairwise _
    rcases login_codes_cases db now e p c ok with hc | ⟨uid, hc⟩
    · rw [hc]; exact h
    · rw [hc]; exact pairwiseKey_delete_insert db.codes uid c (now + 300) h
  | resend uid c ok =>
    show ((resend2fa db now uid c ok).2).codes.Pairwise _
    rcases resend2fa_codes_cases db now uid c ok with hc | hc
    · rw [hc]; exact h
    · rw [hc]; exact pairwiseKey_delete_insert db.codes uid c (now + 300) h
  | verify uid c =>
    show ((verify2fa db now uid c).2).codes.Pairwise _
    rcases verify2fa_codes_cases db now uid c with hc | hc
    · rw [hc]; exact h
    · rw [hc]; exact h.sublist (List.filter_sublist db.codes)
  | checkin req =>
    show ((checkin dist db now req).2).codes.Pairwise _
    rw [checkin_codes_unchanged]; exact h
  | checkout req =>
    show ((checkout dist db now req).2).codes.Pairwise _
    rw [checkout_codes_unchanged]; exact h

lemma run_preserves_atMostOne (dist : ℚ → ℚ → ℚ → ℚ → ℚ)
    (ops : List (Op × Nat)) :
    ∀ db : DB, atMostOneCodePerUser db →
      atMostOneCodePerUser (run dist db ops) := by
  induction ops with
  | nil => intro db h; exact h
  | cons op rest ih =>
    intro db h
    exact ih _ (step_preserves_atMostOne dist db op h)

/-- C4: login and resend both delete the user's existing codes before
inserting the new one with expiry now + 300 s; consequently every
request sequence preserves at-most-one-stored-code-per-user, and after
an issuance a previously issued (distinct) code no longer verifies. -/
theorem claim_single_active_code
    (dist : ℚ → ℚ → ℚ → ℚ → ℚ) (db db₀ : DB) (now t : Nat)
    (e p newCode oldCode rc oldCode2 : String) (ok : Bool)
    (user v : UserRec) (rid : Nat) (ops : List (Op × Nat))
    (he : e ≠ "") (hp : p ≠ "")
    (hfind : db.users.find? (fun u => u.email == e) = some user)
    (hpw : user.passwordHash = p) (huid : user.userId ≠ 0)
    (hold : oldCode ≠ newCode) (holdne : oldCode ≠ "")
    (hrid : rid ≠ 0)
    (hrfind : db.users.find? (fun u => u.userId == rid) = some v)
    (hold2 : oldCode2 ≠ rc) (hold2ne : oldCode2 ≠ "")
    (hinv : atMostOneCodePerUser db₀) :
    (login db now e p newCode ok).2.codes
      = insertCode (deleteCodesFor db.codes user.userId) user.userId newCode (now + 300)
    ∧ (resend2fa db now rid rc ok).2.codes
      = insertCode (deleteCodesFor db.codes rid) rid rc (now + 300)
    ∧ (verify2fa (login db now e p newCode ok).2 t user.userId oldCode).1
        = .invalidOrExpired
    ∧ (verify2fa (resend2fa db now rid rc ok).2 t rid oldCode2).1
        = .invalidOrExpired
    ∧ atMostOneCodePerUser (run dist db₀ ops) := by
  have hlogin := login_of_valid_creds db now e p newCode ok user he hp hfind hpw
  have hresend := resend2fa_of_found db now rid rc ok v hrid hrfind
  have hnol : ¬ codeMatches (login db now e p newCode ok).2 user.userId oldCode t := by
    rw [hlogin]
    rintro ⟨r, hr, h1, h2, _⟩
    unfold insertCode deleteCodesFor at hr
    rcases List.mem_append.mp hr with hr | hr
    · rw [List.mem_filter] at hr
      have h3 := hr.2
      simp only [Bool.not_eq_eq_eq_not, Bool.not_true, beq_eq_false_iff_ne,
        ne_eq] at h3
      exact h3 h1
    · rw [List.mem_singleton] at hr
      subst hr
      exact hold h2.symm
  have hnor : ¬ codeMatches (resend2fa db now rid rc ok).2 rid oldCode2 t := by
    rw [hresend]
    rintro ⟨r, hr, h1, h2, _⟩
    unfold insertCode deleteCodesFor at hr
    rcases List.mem_append.mp hr with hr | hr
    · rw [List.mem_filter] at hr
      have h3 := hr.2
      simp only [Bool.not_eq_eq_eq_not, Bool.not_true, beq_eq_false_iff_ne,
        ne_eq] at h3
      exact h3 h1
    · rw [List.mem_singleton] at hr
      subst hr
      exact hold2 h2.symm
  refine ⟨by rw [hlogin], by rw [hresend], ?_, ?_, ?_⟩
  · rw [verify2fa_of_no_match _ t user.userId oldCode huid holdne hnol]
  · rw [verify2fa_of_no_match _ t rid oldCode2 hrid hold2ne hnor]
  · exact run_preserves_atMostOne dist ops db₀ hinv

/-- Closed witness for C4: issuing `123456` for user 1 replaces the
stored `999999`, which then no longer verifies, and a concrete request
sequence keeps at most one code per user. -/
theorem claim_single_active_code_witness :
    ("a@x.com" : String) ≠ "" ∧ ("999999" : String) ≠ "123456"
    ∧ (login (DB.mk [⟨1, "a@x.com", "pw"⟩] [⟨1, "999999", 900⟩] [] none)
        10 "a@x.com" "pw" "123456" true).2.codes = [⟨1, "123456", 310⟩]
    ∧ (verify2fa
        (login (DB.mk [⟨1, "a@x.com", "pw"⟩] [⟨1, "999999", 900⟩] [] none)
          10 "a@x.com" "pw" "123456" true).2
        20 1 "999999").1 = .invalidOrExpired
    ∧ atMostOneCodePerUser
        (run (fun _ _ _ _ => 0)
          (DB.mk [⟨1, "a@x.com", "pw"⟩] [] [] none)
          [(.login "a@x.com" "pw" "111111" true, 1),
           (.login "a@x.com" "pw" "222222" false, 2),
           (.resend 1 "333333" true, 3),
           (.verify 1 "333333", 4)]) := by
  have h := claim_single_active_code (fun _ _ _ _ => 0)
    (DB.mk [⟨1, "a@x.com", "pw"⟩] [⟨1, "999999", 900⟩] [] none)
    (DB.mk [⟨1, "a@x.com", "pw"⟩] [] [] none)
    10 20 "a@x.com" "pw" "123456" "999999" "123456" "999999" true
    ⟨1, "a@x.com", "pw"⟩ ⟨1, "a@x.com", "pw"⟩ 1
    [(.login "a@x.com" "pw" "111111" true, 1),
     (.login "a@x.com" "pw" "222222" false, 2),
     (.resend 1 "333333" true, 3),
     (.verify 1 "333333", 4)]
    (by decide) (by decide) (by decide) rfl (by decide) (by decide)
    (by decide) (by decide) (by decide) (by decide) (by decide)
    List.Pairwise.nil
  refine ⟨by decide, by decide, ?_, h.2.2.1, h.2.2.2.2⟩
  rw [h.1]
  decide

end Kompro
